import Mathlib

/-!
Shallow embedding of the `OrtValue` value container from
`include/onnxruntime/core/framework/ml_value.h`.

The container holds a `std::shared_ptr<void> data_` (the payload, shared
ownership with a caller-supplied deleter), an `onnxruntime::MLDataType type_`
(a raw pointer into the type-identity registry, null when absent) and an
`onnxruntime::FencePtr fence_` (an optional fence handle).

Modelling decisions:
- Addresses and type-identity handles are `Nat`; a nullable pointer is an
  `Option Nat` (`none` = `nullptr`).  Pointer comparison is `Option.decEq`.
- A `std::shared_ptr` is either empty (`none`: no control block, as after
  default construction or construction from `nullptr_t`) or owns a control
  block (`some b`).  Control blocks live in an explicit `Heap`.  A control
  block stores the raw payload pointer (which may itself be null: the C++
  constructor `shared_ptr<void>(p, deleter)` allocates a control block and
  binds the deleter even when `p == nullptr`), the deleter id and a reference
  count.  `Heap.deleterRuns` counts how often each deleter has fired.
- The fence is carried as the raw handle value returned by `fence_.get()`;
  no claim depends on the fence's own reference counting.
-/

/-- A `std::shared_ptr` control block: stored raw pointer (possibly null),
bound deleter id, and strong reference count (`0` = already released). -/
structure CtrlBlock where
  ptr : Option Nat
  deleter : Nat
  refcount : Nat
deriving Repr, DecidableEq

/-- The heap of control blocks, plus a count of how many times each deleter
id has been invoked. -/
structure Heap where
  blocks : List CtrlBlock
  deleterRuns : Nat → Nat

/-- The empty heap: no control blocks, no deleter has run. -/
def Heap.empty : Heap := ⟨[], fun _ => 0⟩

/-- `shared_ptr<void>(pData, deleter)`: allocates a fresh control block with
reference count 1 — even when `pData` is null.  Returns the updated heap and
the new block id. -/
def Heap.newBlock (h : Heap) (p : Option Nat) (d : Nat) : Heap × Nat :=
  (⟨h.blocks ++ [⟨p, d, 1⟩], h.deleterRuns⟩, h.blocks.length)

/-- Incrementing a control block's strong count (copying a `shared_ptr`). -/
def Heap.retain (h : Heap) (b : Nat) : Heap :=
  match h.blocks.get? b with
  | some cb => ⟨h.blocks.set b ⟨cb.ptr, cb.deleter, cb.refcount + 1⟩, h.deleterRuns⟩
  | none => h

/-- Decrementing a control block's strong count (releasing a `shared_ptr`).
When the count drops from 1 to 0 the bound deleter fires once. -/
def Heap.release (h : Heap) (b : Nat) : Heap :=
  match h.blocks.get? b with
  | some cb =>
    if cb.refcount = 1 then
      ⟨h.blocks.set b ⟨cb.ptr, cb.deleter, 0⟩,
        fun d => if d = cb.deleter then h.deleterRuns d + 1 else h.deleterRuns d⟩
    else if cb.refcount = 0 then h
    else ⟨h.blocks.set b ⟨cb.ptr, cb.deleter, cb.refcount - 1⟩, h.deleterRuns⟩
  | none => h

/-- A `std::shared_ptr<void>` value: `none` = empty (no control block). -/
abbrev SPtr : Type := Option Nat

/-- Copying a `shared_ptr` value into a new owner: retains its block. -/
def retainS (h : Heap) (s : SPtr) : Heap :=
  match s with
  | some b => h.retain b
  | none => h

/-- Dropping a `shared_ptr` value: releases its block. -/
def releaseS (h : Heap) (s : SPtr) : Heap :=
  match s with
  | some b => h.release b
  | none => h

/-- `shared_ptr::get()`: the stored raw pointer, null for an empty pointer
or a released/absent block. -/
def sptrGet (h : Heap) (s : SPtr) : Option Nat :=
  match s with
  | some b =>
    match h.blocks.get? b with
    | some cb => cb.ptr
    | none => none
  | none => none

/-- The type-identity registry (`onnxruntime::DataTypeImpl`): capability
predicates over identity handles, as consumed by the container. -/
structure TypeRegistry where
  isTensorType : Nat → Bool
  isTensorSequenceType : Nat → Bool
  isSparseTensorType : Nat → Bool

/-- The three categorical accessor families. -/
inductive Family where
  | tensor
  | tensorSeq
  | sparseTensor
deriving Repr, DecidableEq

/-- The failure raised by `ORT_ENFORCE` in the typed accessors: an exact
identity mismatch (carrying both identities) or a family-predicate failure
(carrying the family and the actual identity). -/
inductive AccessError where
  | typeMismatch (expected actual : Option Nat)
  | familyMismatch (expected : Family) (actual : Option Nat)
deriving Repr, DecidableEq

/-- `struct OrtValue`: payload `shared_ptr`, type identity, fence handle. -/
structure OrtValue where
  data_ : SPtr
  type_ : Option Nat
  fence_ : Option Nat
deriving Repr, DecidableEq

namespace OrtValue

/-- `OrtValue() : data_(nullptr)` — all members empty/null. -/
def default : OrtValue := ⟨none, none, none⟩

/-- `~OrtValue()`: stores an empty `shared_ptr` into `data_`, releasing the
payload block; returns the resulting heap (the object is gone). -/
def destroy (h : Heap) (v : OrtValue) : Heap :=
  releaseS h v.data_

/-- `OrtValue(const OrtValue& v)`: copies `type_` and `fence_`, and
atomically stores `v.data_` into the new object's `data_` (retaining the
shared payload block). -/
def copyCtor (h : Heap) (v : OrtValue) : Heap × OrtValue :=
  (retainS h v.data_, ⟨v.data_, v.type_, v.fence_⟩)

/-- `Init(pData, type, deleter)`: builds `shared_ptr<void> d(pData, deleter)`
(a fresh control block, even for null `pData`), stores it into `data_`
(releasing the previously held block) and sets `type_`.  `fence_` is
untouched. -/
def init (h : Heap) (v : OrtValue) (pData : Option Nat) (type : Option Nat)
    (deleter : Nat) : Heap × OrtValue :=
  let hb := h.newBlock pData deleter
  (releaseS hb.1 v.data_, ⟨some hb.2, type, v.fence_⟩)

/-- `OrtValue(void* pData, MLDataType type, DeleteFunc deleter)`: default
member initialization followed by `Init`. -/
def ctorWith (h : Heap) (pData : Option Nat) (type : Option Nat)
    (deleter : Nat) : Heap × OrtValue :=
  init h OrtValue.default pData type deleter

/-- `IsAllocated()`: `d && type_` where `d = atomic_load(&data_)` — the
loaded `shared_ptr` converts to `true` iff its stored raw pointer is
non-null. -/
def isAllocated (h : Heap) (v : OrtValue) : Bool :=
  (sptrGet h v.data_).isSome && v.type_.isSome

/-- Generic `Get<T>() const`: enforces `GetType<T>() == type_` (identity
pointer equality; `tid` is T's canonical identity, never null), then loads
the payload and reinterprets it as `T` (we return the payload address). -/
def get (v : OrtValue) (h : Heap) (tid : Nat) : Except AccessError (Option Nat) :=
  if some tid = v.type_ then Except.ok (sptrGet h v.data_)
  else Except.error (AccessError.typeMismatch (some tid) v.type_)

/-- Generic `GetMutable<T>()`: same enforcement, returns `T*`. -/
def getMutable (v : OrtValue) (h : Heap) (tid : Nat) : Except AccessError (Option Nat) :=
  if some tid = v.type_ then Except.ok (sptrGet h v.data_)
  else Except.error (AccessError.typeMismatch (some tid) v.type_)

/-- `IsTensor()`: `type_ != nullptr && type_->IsTensorType()`. -/
def isTensor (reg : TypeRegistry) (v : OrtValue) : Bool :=
  match v.type_ with
  | none => false
  | some t => reg.isTensorType t

/-- `IsTensorSequence()`: `type_ != nullptr && type_->IsTensorSequenceType()`. -/
def isTensorSequence (reg : TypeRegistry) (v : OrtValue) : Bool :=
  match v.type_ with
  | none => false
  | some t => reg.isTensorSequenceType t

/-- `IsSparseTensor()`: `type_ != nullptr && type_->IsSparseTensorType()`. -/
def isSparseTensor (reg : TypeRegistry) (v : OrtValue) : Bool :=
  match v.type_ with
  | none => false
  | some t => reg.isSparseTensorType t

/-- `Type()`: returns `type_`. -/
def getType (v : OrtValue) : Option Nat := v.type_

/-- `Fence()`: returns `fence_.get()`. -/
def fence (v : OrtValue) : Option Nat := v.fence_

/-- `SetFence(fence)`: replaces `fence_`. -/
def setFence (v : OrtValue) (f : Option Nat) : OrtValue :=
  ⟨v.data_, v.type_, f⟩

/-- `ShareFenceWith(OrtValue& v)`: `fence_ = v.fence_` (the argument is
only read). -/
def shareFenceWith (v w : OrtValue) : OrtValue :=
  ⟨v.data_, v.type_, w.fence_⟩

/-- `Get<Tensor>() const` specialization: enforces `IsTensor()`. -/
def getTensor (v : OrtValue) (h : Heap) (reg : TypeRegistry) :
    Except AccessError (Option Nat) :=
  if v.isTensor reg then Except.ok (sptrGet h v.data_)
  else Except.error (AccessError.familyMismatch Family.tensor v.type_)

/-- `GetMutable<Tensor>()` specialization: enforces `IsTensor()`. -/
def getMutableTensor (v : OrtValue) (h : Heap) (reg : TypeRegistry) :
    Except AccessError (Option Nat) :=
  if v.isTensor reg then Except.ok (sptrGet h v.data_)
  else Except.error (AccessError.familyMismatch Family.tensor v.type_)

/-- `Get<TensorSeq>() const` specialization: enforces `IsTensorSequence()`. -/
def getTensorSeq (v : OrtValue) (h : Heap) (reg : TypeRegistry) :
    Except AccessError (Option Nat) :=
  if v.isTensorSequence reg then Except.ok (sptrGet h v.data_)
  else Except.error (AccessError.familyMismatch Family.tensorSeq v.type_)

/-- `GetMutable<TensorSeq>()` specialization: enforces `IsTensorSequence()`. -/
def getMutableTensorSeq (v : OrtValue) (h : Heap) (reg : TypeRegistry) :
    Except AccessError (Option Nat) :=
  if v.isTensorSequence reg then Except.ok (sptrGet h v.data_)
  else Except.error (AccessError.familyMismatch Family.tensorSeq v.type_)

/-- `Get<SparseTensor>() const` specialization: enforces `IsSparseTensor()`. -/
def getSparseTensor (v : OrtValue) (h : Heap) (reg : TypeRegistry) :
    Except AccessError (Option Nat) :=
  if v.isSparseTensor reg then Except.ok (sptrGet h v.data_)
  else Except.error (AccessError.familyMismatch Family.sparseTensor v.type_)

/-- `GetMutable<SparseTensor>()` specialization: enforces `IsSparseTensor()`. -/
def getMutableSparseTensor (v : OrtValue) (h : Heap) (reg : TypeRegistry) :
    Except AccessError (Option Nat) :=
  if v.isSparseTensor reg then Except.ok (sptrGet h v.data_)
  else Except.error (AccessError.familyMismatch Family.sparseTensor v.type_)

end OrtValue

/-- A store of containers addressed by index, to model object identity
(`this != &v`) in the assignment operators. -/
abbrev Store : Type := List OrtValue

/-- `operator=(const OrtValue& v)` executed with destination at address `i`
and source at address `j`: guarded by `this != &v`; copies the payload
handle (retain new, release old), `type_` and `fence_`. -/
def copyAssignAt (h : Heap) (s : Store) (i j : Nat) : Heap × Store :=
  match s.get? i, s.get? j with
  | some dst, some src =>
    if i ≠ j then
      let h1 := retainS h src.data_
      let h2 := releaseS h1 dst.data_
      (h2, s.set i ⟨src.data_, src.type_, src.fence_⟩)
    else (h, s)
  | _, _ => (h, s)

/-- `operator=(OrtValue&& v)` executed with destination at address `i` and
source at address `j`: the body is identical to the copy assignment — it
stores a copy of `v.data_` (the source keeps its payload) and copies
`type_` and `fence_`. -/
def moveAssignAt (h : Heap) (s : Store) (i j : Nat) : Heap × Store :=
  match s.get? i, s.get? j with
  | some dst, some src =>
    if i ≠ j then
      let h1 := retainS h src.data_
      let h2 := releaseS h1 dst.data_
      (h2, s.set i ⟨src.data_, src.type_, src.fence_⟩)
    else (h, s)
  | _, _ => (h, s)

/-- Destroying a list of containers left to right. -/
def destroyList (h : Heap) (l : List OrtValue) : Heap :=
  l.foldl OrtValue.destroy h

/-- Making `n` copies of `v` by repeated copy construction. -/
def makeCopies (h : Heap) (v : OrtValue) : Nat → Heap × List OrtValue
  | 0 => (h, [])
  | n + 1 =>
    let hw := v.copyCtor h
    let rest := makeCopies hw.1 v n
    (rest.1, hw.2 :: rest.2)

/-! ## List helper lemmas -/

theorem lget_set_self {α : Type} (l : List α) (i : Nat) (a b : α)
    (hb : l.get? i = some b) : (l.set i a).get? i = some a := by
  induction l generalizing i with
  | nil => simp at hb
  | cons x xs ih =>
    cases i with
    | zero => rfl
    | succ n => exact ih n hb

theorem lget_set_ne {α : Type} (l : List α) (i j : Nat) (a : α)
    (hij : i ≠ j) : (l.set i a).get? j = l.get? j := by
  induction l generalizing i j with
  | nil => rfl
  | cons x xs ih =>
    cases i with
    | zero =>
      cases j with
      | zero => exact absurd rfl hij
      | succ m => rfl
    | succ n =>
      cases j with
      | zero => rfl
      | succ m => exact ih n m (fun hh => hij (by rw [hh]))

theorem lget_append_singleton {α : Type} (l : List α) (a : α) :
    (l ++ [a]).get? l.length = some a := by
  induction l with
  | nil => rfl
  | cons x xs ih => exact ih

/-! ## Heap invariance lemmas: retaining/releasing never changes any stored
raw pointer, and retaining never runs a deleter. -/

theorem sptrGet_some (h : Heap) (b : Nat) :
    sptrGet h (some b) =
      (match h.blocks.get? b with
       | some cb => cb.ptr
       | none => none) := rfl

theorem sptrGet_set_same_ptr (h : Heap) (b : Nat) (cb : CtrlBlock)
    (heq : h.blocks.get? b = some cb) (r : Nat) (runs : Nat → Nat) (b' : Nat) :
    sptrGet ⟨h.blocks.set b ⟨cb.ptr, cb.deleter, r⟩, runs⟩ (some b') =
      sptrGet h (some b') := by
  by_cases hbb : b = b'
  · subst hbb
    rw [sptrGet_some, sptrGet_some, lget_set_self _ _ _ _ heq, heq]
  · rw [sptrGet_some, sptrGet_some, lget_set_ne _ _ _ _ hbb]

theorem sptrGet_retain (h : Heap) (b : Nat) (s : SPtr) :
    sptrGet (h.retain b) s = sptrGet h s := by
  cases s with
  | none => rfl
  | some b' =>
    unfold Heap.retain
    split
    case h_1 cb heq => exact sptrGet_set_same_ptr h b cb heq _ _ b'
    case h_2 => rfl

theorem sptrGet_release (h : Heap) (b : Nat) (s : SPtr) :
    sptrGet (h.release b) s = sptrGet h s := by
  cases s with
  | none => rfl
  | some b' =>
    unfold Heap.release
    split
    case h_1 cb heq =>
      by_cases h1 : cb.refcount = 1
      · rw [if_pos h1]
        exact sptrGet_set_same_ptr h b cb heq _ _ b'
      · rw [if_neg h1]
        by_cases h0 : cb.refcount = 0
        · rw [if_pos h0]
        · rw [if_neg h0]
          exact sptrGet_set_same_ptr h b cb heq _ _ b'
    case h_2 => rfl

theorem sptrGet_retainS (h : Heap) (s0 s : SPtr) :
    sptrGet (retainS h s0) s = sptrGet h s := by
  cases s0 with
  | none => rfl
  | some b => exact sptrGet_retain h b s

theorem sptrGet_releaseS (h : Heap) (s0 s : SPtr) :
    sptrGet (releaseS h s0) s = sptrGet h s := by
  cases s0 with
  | none => rfl
  | some b => exact sptrGet_release h b s

theorem deleterRuns_retain (h : Heap) (b : Nat) :
    (h.retain b).deleterRuns = h.deleterRuns := by
  unfold Heap.retain
  split <;> rfl

theorem deleterRuns_retainS (h : Heap) (s0 : SPtr) :
    (retainS h s0).deleterRuns = h.deleterRuns := by
  cases s0 with
  | none => rfl
  | some b => exact deleterRuns_retain h b

theorem isAllocated_retainS (h : Heap) (s0 : SPtr) (v : OrtValue) :
    OrtValue.isAllocated (retainS h s0) v = OrtValue.isAllocated h v := by
  unfold OrtValue.isAllocated
  rw [sptrGet_retainS]

theorem isAllocated_releaseS (h : Heap) (s0 : SPtr) (v : OrtValue) :
    OrtValue.isAllocated (releaseS h s0) v = OrtValue.isAllocated h v := by
  unfold OrtValue.isAllocated
  rw [sptrGet_releaseS]

theorem get_retainS (h : Heap) (s0 : SPtr) (v : OrtValue) (tid : Nat) :
    v.get (retainS h s0) tid = v.get h tid := by
  unfold OrtValue.get
  rw [sptrGet_retainS]

theorem get_releaseS (h : Heap) (s0 : SPtr) (v : OrtValue) (tid : Nat) :
    v.get (releaseS h s0) tid = v.get h tid := by
  unfold OrtValue.get
  rw [sptrGet_releaseS]

/-! ## Reference-count bookkeeping lemmas -/

theorem retain_get_self (h : Heap) (b : Nat) (cb : CtrlBlock)
    (hb : h.blocks.get? b = some cb) :
    (h.retain b).blocks.get? b = some ⟨cb.ptr, cb.deleter, cb.refcount + 1⟩ := by
  unfold Heap.retain
  rw [hb]
  exact lget_set_self _ _ _ _ hb

theorem release_last (h : Heap) (b : Nat) (p : Option Nat) (d : Nat)
    (hb : h.blocks.get? b = some ⟨p, d, 1⟩) :
    (h.release b).blocks.get? b = some ⟨p, d, 0⟩ ∧
    ∀ d', (h.release b).deleterRuns d' =
      if d' = d then h.deleterRuns d' + 1 else h.deleterRuns d' := by
  unfold Heap.release
  rw [hb]
  exact ⟨lget_set_self _ _ _ _ hb, fun d' => rfl⟩

theorem release_dec (h : Heap) (b : Nat) (p : Option Nat) (d n : Nat)
    (hn : 2 ≤ n) (hb : h.blocks.get? b = some ⟨p, d, n⟩) :
    (h.release b).blocks.get? b = some ⟨p, d, n - 1⟩ ∧
    (h.release b).deleterRuns = h.deleterRuns := by
  have h1 : ¬ (n = 1) := by omega
  have h0 : ¬ (n = 0) := by omega
  simp only [Heap.release, hb, if_neg h1, if_neg h0]
  exact ⟨lget_set_self _ _ _ _ hb, trivial⟩

/-! ## Claim theorems -/

/-- C1: for every concrete type (canonical identity `tid`) and every
container, `Get<T>()` and `GetMutable<T>()` fail with a TypeMismatch error
carrying both identities whenever the stored identity differs from `tid`
(including the unallocated case, where the stored identity is null), and
succeed returning the stored payload when the identities are equal. -/
theorem C1_exact_typed_access (h : Heap) (tid : Nat) (v : OrtValue) :
    (v.type_ ≠ some tid →
      v.get h tid = Except.error (AccessError.typeMismatch (some tid) v.type_) ∧
      v.getMutable h tid = Except.error (AccessError.typeMismatch (some tid) v.type_)) ∧
    (v.type_ = some tid →
      v.get h tid = Except.ok (sptrGet h v.data_) ∧
      v.getMutable h tid = Except.ok (sptrGet h v.data_)) ∧
    (v.type_ = none →
      v.get h tid = Except.error (AccessError.typeMismatch (some tid) none) ∧
      v.getMutable h tid = Except.error (AccessError.typeMismatch (some tid) none)) := by
  refine ⟨?_, ?_, ?_⟩
  · intro hne
    have hns : ¬ (some tid = v.type_) := fun hh => hne hh.symm
    unfold OrtValue.get OrtValue.getMutable
    rw [if_neg hns]
    exact ⟨rfl, rfl⟩
  · intro he
    unfold OrtValue.get OrtValue.getMutable
    rw [if_pos he.symm]
    exact ⟨rfl, rfl⟩
  · intro hn
    have hns : ¬ (some tid = v.type_) := by rw [hn]; exact fun hh => Option.noConfusion hh
    unfold OrtValue.get OrtValue.getMutable
    rw [if_neg hns, hn]
    exact ⟨rfl, rfl⟩

/-- C1 witness: concrete success, mismatch and unallocated accesses. -/
theorem C1_witness :
    OrtValue.get ⟨some 0, some 3, none⟩ ⟨[⟨some 42, 0, 1⟩], fun _ => 0⟩ 3 =
      Except.ok (some 42) ∧
    OrtValue.get ⟨some 0, some 5, none⟩ ⟨[⟨some 42, 0, 1⟩], fun _ => 0⟩ 3 =
      Except.error (AccessError.typeMismatch (some 3) (some 5)) ∧
    OrtValue.getMutable OrtValue.default Heap.empty 3 =
      Except.error (AccessError.typeMismatch (some 3) none) :=
  ⟨((C1_exact_typed_access ⟨[⟨some 42, 0, 1⟩], fun _ => 0⟩ 3 ⟨some 0, some 3, none⟩).2.1 rfl).1,
   ((C1_exact_typed_access ⟨[⟨some 42, 0, 1⟩], fun _ => 0⟩ 3 ⟨some 0, some 5, none⟩).1 (by decide)).1,
   ((C1_exact_typed_access Heap.empty 3 OrtValue.default).2.2 rfl).2⟩

/-- C8: after `A.ShareFenceWith(B)`, `A.Fence()` and `B.Fence()` return
equal handles, and A's payload and type identity are unchanged (B is only
read). -/
theorem C8_share_fence_with (a b : OrtValue) :
    (a.shareFenceWith b).fence = b.fence ∧
    (a.shareFenceWith b).data_ = a.data_ ∧
    (a.shareFenceWith b).type_ = a.type_ :=
  ⟨rfl, rfl, rfl⟩

/-- C9: self-assignment (copy or move) is a no-op: the heap (reference
counts, deleter-invocation counts) and the whole store of containers
(payload, identity, fence of every container) are unchanged. -/
theorem C9_self_assignment_noop (h : Heap) (s : Store) (i : Nat) :
    copyAssignAt h s i i = (h, s) ∧ moveAssignAt h s i i = (h, s) := by
  refine ⟨?_, ?_⟩
  · unfold copyAssignAt
    rcases hsi : s.get? i with _ | dst <;> simp
  · unfold moveAssignAt
    rcases hsi : s.get? i with _ | dst <;> simp

/-- C10: move-assignment between distinct containers is observably the copy
assignment: same function of the state; the destination receives the
source's (payload, identity, fence) triple; the source container is left
unchanged in the store and its allocation status is unaffected. -/
theorem C10_move_assignment_equals_copy (h : Heap) (s : Store) (i j : Nat)
    (dst src : OrtValue) (hi : s.get? i = some dst) (hj : s.get? j = some src)
    (hij : i ≠ j) :
    moveAssignAt h s i j = copyAssignAt h s i j ∧
    (moveAssignAt h s i j).2.get? i = some ⟨src.data_, src.type_, src.fence_⟩ ∧
    (moveAssignAt h s i j).2.get? j = some src ∧
    OrtValue.isAllocated (moveAssignAt h s i j).1 src =
      OrtValue.isAllocated h src := by
  refine ⟨rfl, ?_, ?_, ?_⟩
  · simp only [moveAssignAt, hi, hj]
    rw [if_pos hij]
    exact lget_set_self _ _ _ _ hi
  · simp only [moveAssignAt, hi, hj]
    rw [if_pos hij]
    rw [lget_set_ne _ _ _ _ hij]
    exact hj
  · simp only [moveAssignAt, hi, hj]
    rw [if_pos hij]
    rw [isAllocated_releaseS, isAllocated_retainS]

/-- C10 witness: a concrete two-container store. -/
theorem C10_witness :
    moveAssignAt ⟨[⟨some 7, 0, 1⟩], fun _ => 0⟩
        [OrtValue.default, ⟨some 0, some 4, some 9⟩] 0 1 =
      copyAssignAt ⟨[⟨some 7, 0, 1⟩], fun _ => 0⟩
        [OrtValue.default, ⟨some 0, some 4, some 9⟩] 0 1 ∧
    (moveAssignAt ⟨[⟨some 7, 0, 1⟩], fun _ => 0⟩
        [OrtValue.default, ⟨some 0, some 4, some 9⟩] 0 1).2.get? 0 =
      some ⟨some 0, some 4, some 9⟩ ∧
    (moveAssignAt ⟨[⟨some 7, 0, 1⟩], fun _ => 0⟩
        [OrtValue.default, ⟨some 0, some 4, some 9⟩] 0 1).2.get? 1 =
      some ⟨some 0, some 4, some 9⟩ ∧
    OrtValue.isAllocated (moveAssignAt ⟨[⟨some 7, 0, 1⟩], fun _ => 0⟩
        [OrtValue.default, ⟨some 0, some 4, some 9⟩] 0 1).1 ⟨some 0, some 4, some 9⟩ =
      OrtValue.isAllocated ⟨[⟨some 7, 0, 1⟩], fun _ => 0⟩ ⟨some 0, some 4, some 9⟩ :=
  C10_move_assignment_equals_copy ⟨[⟨some 7, 0, 1⟩], fun _ => 0⟩
    [OrtValue.default, ⟨some 0, some 4, some 9⟩] 0 1
    OrtValue.default ⟨some 0, some 4, some 9⟩ rfl rfl (by decide)

/-- C3: a container produced by copy construction or copy assignment holds
exactly the source's (payload, identity, fence) triple; its allocation
status equals the source's, and typed access on it returns the same payload
address as on the source — the payload is shared, not duplicated. -/
theorem C3_copy_shares_payload (h : Heap) (v : OrtValue) (tid : Nat)
    (s : Store) (i j : Nat) (dst src : OrtValue)
    (hi : s.get? i = some dst) (hj : s.get? j = some src) (hij : i ≠ j) :
    ((v.copyCtor h).2 = ⟨v.data_, v.type_, v.fence_⟩ ∧
      OrtValue.isAllocated (v.copyCtor h).1 (v.copyCtor h).2 =
        OrtValue.isAllocated h v ∧
      OrtValue.get (v.copyCtor h).2 (v.copyCtor h).1 tid = v.get h tid) ∧
    ((copyAssignAt h s i j).2.get? i = some ⟨src.data_, src.type_, src.fence_⟩ ∧
      OrtValue.isAllocated (copyAssignAt h s i j).1 ⟨src.data_, src.type_, src.fence_⟩ =
        OrtValue.isAllocated h src ∧
      OrtValue.get ⟨src.data_, src.type_, src.fence_⟩ (copyAssignAt h s i j).1 tid =
        OrtValue.get src (copyAssignAt h s i j).1 tid) := by
  refine ⟨⟨rfl, ?_, ?_⟩, ?_, ?_, ?_⟩
  · exact isAllocated_retainS h v.data_ v
  · exact get_retainS h v.data_ v tid
  · simp only [copyAssignAt, hi, hj]
    rw [if_pos hij]
    exact lget_set_self _ _ _ _ hi
  · simp only [copyAssignAt, hi, hj]
    rw [if_pos hij]
    rw [isAllocated_releaseS, isAllocated_retainS]
  · rfl

/-- C3 witness: a shared payload observed through an original, a copy and an
assigned-to container. -/
theorem C3_witness :
    (OrtValue.copyCtor ⟨[⟨some 8, 0, 1⟩], fun _ => 0⟩ ⟨some 0, some 2, none⟩).2 =
      (⟨some 0, some 2, none⟩ : OrtValue) ∧
    OrtValue.isAllocated
      (OrtValue.copyCtor ⟨[⟨some 8, 0, 1⟩], fun _ => 0⟩ ⟨some 0, some 2, none⟩).1
      (OrtValue.copyCtor ⟨[⟨some 8, 0, 1⟩], fun _ => 0⟩ ⟨some 0, some 2, none⟩).2 =
      OrtValue.isAllocated ⟨[⟨some 8, 0, 1⟩], fun _ => 0⟩ ⟨some 0, some 2, none⟩ ∧
    (copyAssignAt ⟨[⟨some 8, 0, 1⟩], fun _ => 0⟩
        [OrtValue.default, ⟨some 0, some 2, none⟩] 0 1).2.get? 0 =
      some ⟨some 0, some 2, none⟩ :=
  have main := C3_copy_shares_payload ⟨[⟨some 8, 0, 1⟩], fun _ => 0⟩
    ⟨some 0, some 2, none⟩ 2 [OrtValue.default, ⟨some 0, some 2, none⟩] 0 1
    OrtValue.default ⟨some 0, some 2, none⟩ rfl rfl (by decide)
  ⟨main.1.1, main.1.2.1, main.2.1⟩

/-- C4: each categorical accessor (const and mutable, for the Tensor,
TensorSeq and SparseTensor families) succeeds — returning the payload —
exactly when the container's identity satisfies the corresponding family
predicate, and fails with a TypeMismatch error naming the family and the
actual identity otherwise; in particular a container holding a sparse-tensor
identity (not tagged tensor or tensor-sequence) fails the tensor and
tensor-sequence accessors and succeeds with the sparse accessor. -/
theorem C4_categorical_accessors (h : Heap) (reg : TypeRegistry)
    (v : OrtValue) (t : Nat) :
    (v.isTensor reg = true →
      v.getTensor h reg = Except.ok (sptrGet h v.data_) ∧
      v.getMutableTensor h reg = Except.ok (sptrGet h v.data_)) ∧
    (v.isTensor reg = false →
      v.getTensor h reg = Except.error (AccessError.familyMismatch Family.tensor v.type_) ∧
      v.getMutableTensor h reg =
        Except.error (AccessError.familyMismatch Family.tensor v.type_)) ∧
    (v.isTensorSequence reg = true →
      v.getTensorSeq h reg = Except.ok (sptrGet h v.data_) ∧
      v.getMutableTensorSeq h reg = Except.ok (sptrGet h v.data_)) ∧
    (v.isTensorSequence reg = false →
      v.getTensorSeq h reg =
        Except.error (AccessError.familyMismatch Family.tensorSeq v.type_) ∧
      v.getMutableTensorSeq h reg =
        Except.error (AccessError.familyMismatch Family.tensorSeq v.type_)) ∧
    (v.isSparseTensor reg = true →
      v.getSparseTensor h reg = Except.ok (sptrGet h v.data_) ∧
      v.getMutableSparseTensor h reg = Except.ok (sptrGet h v.data_)) ∧
    (v.isSparseTensor reg = false →
      v.getSparseTensor h reg =
        Except.error (AccessError.familyMismatch Family.sparseTensor v.type_) ∧
      v.getMutableSparseTensor h reg =
        Except.error (AccessError.familyMismatch Family.sparseTensor v.type_)) ∧
    (v.type_ = some t → reg.isSparseTensorType t = true →
      reg.isTensorType t = false → reg.isTensorSequenceType t = false →
      v.getSparseTensor h reg = Except.ok (sptrGet h v.data_) ∧
      v.getTensor h reg =
        Except.error (AccessError.familyMismatch Family.tensor (some t)) ∧
      v.getTensorSeq h reg =
        Except.error (AccessError.familyMismatch Family.tensorSeq (some t))) := by
  refine ⟨?_, ?_, ?_, ?_, ?_, ?_, ?_⟩
  · intro hp
    constructor <;> simp [OrtValue.getTensor, OrtValue.getMutableTensor, hp]
  · intro hp
    constructor <;> simp [OrtValue.getTensor, OrtValue.getMutableTensor, hp]
  · intro hp
    constructor <;> simp [OrtValue.getTensorSeq, OrtValue.getMutableTensorSeq, hp]
  · intro hp
    constructor <;> simp [OrtValue.getTensorSeq, OrtValue.getMutableTensorSeq, hp]
  · intro hp
    constructor <;> simp [OrtValue.getSparseTensor, OrtValue.getMutableSparseTensor, hp]
  · intro hp
    constructor <;> simp [OrtValue.getSparseTensor, OrtValue.getMutableSparseTensor, hp]
  · intro ht hsp hnt hns
    refine ⟨?_, ?_, ?_⟩
    · simp [OrtValue.getSparseTensor, OrtValue.isSparseTensor, ht, hsp]
    · simp [OrtValue.getTensor, OrtValue.isTensor, ht, hnt]
    · simp [OrtValue.getTensorSeq, OrtValue.isTensorSequence, ht, hns]

/-- C4 witness: a registry with identity 1 = tensor family, 2 = sequence
family, 3 = sparse family; a container holding identity 3. -/
theorem C4_witness :
    OrtValue.getSparseTensor ⟨some 0, some 3, none⟩ ⟨[⟨some 11, 0, 1⟩], fun _ => 0⟩
      ⟨fun t => t == 1, fun t => t == 2, fun t => t == 3⟩ = Except.ok (some 11) ∧
    OrtValue.getTensor ⟨some 0, some 3, none⟩ ⟨[⟨some 11, 0, 1⟩], fun _ => 0⟩
      ⟨fun t => t == 1, fun t => t == 2, fun t => t == 3⟩ =
      Except.error (AccessError.familyMismatch Family.tensor (some 3)) ∧
    OrtValue.getTensorSeq ⟨some 0, some 3, none⟩ ⟨[⟨some 11, 0, 1⟩], fun _ => 0⟩
      ⟨fun t => t == 1, fun t => t == 2, fun t => t == 3⟩ =
      Except.error (AccessError.familyMismatch Family.tensorSeq (some 3)) ∧
    OrtValue.getMutableTensor ⟨some 0, some 1, none⟩ ⟨[⟨some 11, 0, 1⟩], fun _ => 0⟩
      ⟨fun t => t == 1, fun t => t == 2, fun t => t == 3⟩ = Except.ok (some 11) :=
  have main := C4_categorical_accessors ⟨[⟨some 11, 0, 1⟩], fun _ => 0⟩
    ⟨fun t => t == 1, fun t => t == 2, fun t => t == 3⟩ ⟨some 0, some 3, none⟩ 3
  have cross := main.2.2.2.2.2.2 rfl rfl rfl rfl
  have mt := C4_categorical_accessors ⟨[⟨some 11, 0, 1⟩], fun _ => 0⟩
    ⟨fun t => t == 1, fun t => t == 2, fun t => t == 3⟩ ⟨some 0, some 1, none⟩ 1
  ⟨cross.1, cross.2.1, cross.2.2, (mt.1 rfl).2⟩

/-- C5 counterexample: `OrtValue(nullptr, tensor-identity, d)` (the payload
constructor with a null payload) yields a container that is unallocated —
`IsAllocated()` is false because the loaded payload handle is null — yet
`IsTensor()` returns true, because the predicates consult only `type_`.
This falsifies the claim that every unallocated container (including the
null-payload case) has all capability predicates false. -/
theorem C5_counterexample :
    OrtValue.isAllocated (OrtValue.ctorWith Heap.empty none (some 1) 0).1
      (OrtValue.ctorWith Heap.empty none (some 1) 0).2 = false ∧
    OrtValue.isTensor ⟨fun t => t == 1, fun _ => false, fun _ => false⟩
      (OrtValue.ctorWith Heap.empty none (some 1) 0).2 = true := by
  decide

/-- C5 amended: `IsAllocated()` is true iff both the loaded payload handle
and the type identity are non-null; the predicates return false (without
failing) whenever the type identity is null — in particular on
default-constructed containers — but on a container with a null payload and
a non-null identity each predicate follows the registry's verdict on that
identity, which may be true. -/
theorem C5_allocation_and_predicates (h : Heap) (reg : TypeRegistry)
    (v : OrtValue) (t : Nat) :
    (OrtValue.isAllocated h v = true ↔
      (sptrGet h v.data_).isSome = true ∧ v.type_.isSome = true) ∧
    (v.type_ = none →
      v.isTensor reg = false ∧ v.isTensorSequence reg = false ∧
      v.isSparseTensor reg = false) ∧
    (OrtValue.isAllocated h OrtValue.default = false ∧
      OrtValue.isTensor reg OrtValue.default = false ∧
      OrtValue.isTensorSequence reg OrtValue.default = false ∧
      OrtValue.isSparseTensor reg OrtValue.default = false) ∧
    (v.type_ = some t →
      v.isTensor reg = reg.isTensorType t ∧
      v.isTensorSequence reg = reg.isTensorSequenceType t ∧
      v.isSparseTensor reg = reg.isSparseTensorType t) := by
  refine ⟨?_, ?_, ⟨rfl, rfl, rfl, rfl⟩, ?_⟩
  · unfold OrtValue.isAllocated
    exact Iff.of_eq (Bool.and_eq_true _ _)
  · intro hn
    refine ⟨?_, ?_, ?_⟩ <;>
      simp [OrtValue.isTensor, OrtValue.isTensorSequence, OrtValue.isSparseTensor, hn]
  · intro ht
    refine ⟨?_, ?_, ?_⟩ <;>
      simp [OrtValue.isTensor, OrtValue.isTensorSequence, OrtValue.isSparseTensor, ht]

/-- C5 witness: both sides of the amended statement at concrete inputs. -/
theorem C5_witness :
    OrtValue.isTensor ⟨fun t => t == 1, fun _ => false, fun _ => false⟩
      OrtValue.default = false ∧
    OrtValue.isTensor ⟨fun t => t == 1, fun _ => false, fun _ => false⟩
      ⟨none, some 1, none⟩ =
      TypeRegistry.isTensorType ⟨fun t => t == 1, fun _ => false, fun _ => false⟩ 1 :=
  have m1 := C5_allocation_and_predicates Heap.empty
    ⟨fun t => t == 1, fun _ => false, fun _ => false⟩ OrtValue.default 1
  have m2 := C5_allocation_and_predicates Heap.empty
    ⟨fun t => t == 1, fun _ => false, fun _ => false⟩ ⟨none, some 1, none⟩ 1
  ⟨(m1.2.1 rfl).1, (m2.2.2.2 rfl).1⟩

/-- C6 counterexample: destroying an empty container runs no deleter, but
after `Init(nullptr, nullptr, 7)` on a fresh container, destroying its only
owning copy invokes deleter 7 exactly once — `shared_ptr<void>(p, del)`
binds the deleter even for a null `p` — so the observable effect differs
from destroying empty containers. -/
theorem C6_counterexample :
    (OrtValue.destroy Heap.empty OrtValue.default).deleterRuns 7 = 0 ∧
    (OrtValue.destroy (OrtValue.ctorWith Heap.empty none none 7).1
      (OrtValue.ctorWith Heap.empty none none 7).2).deleterRuns 7 = 1 := by
  decide

/-- C7 counterexample: `Init` is a reachable mutating operation that is not
a whole-container assignment, yet it changes the stored type identity: a
container constructed with identity 1 reports identity 2 after a second
`Init` call. -/
theorem C7_counterexample :
    (OrtValue.ctorWith Heap.empty (some 5) (some 1) 0).2.getType = some 1 ∧
    (OrtValue.init (OrtValue.ctorWith Heap.empty (some 5) (some 1) 0).1
      (OrtValue.ctorWith Heap.empty (some 5) (some 1) 0).2
      (some 6) (some 2) 0).2.getType = some 2 := by
  decide

/-- C7 amended: no operation other than whole-container assignment (copy or
move) or a further `Init` call changes a container's type identity:
`SetFence` and `ShareFenceWith` preserve it, copy construction hands the
destination the source's identity, and either assignment leaves every
container other than the destination untouched (the read-only accessors
return no container and cannot mutate one). -/
theorem C7_identity_stability (h : Heap) (s : Store) (i j m : Nat)
    (v w : OrtValue) (f : Option Nat) (hm : m ≠ i) :
    (v.setFence f).type_ = v.type_ ∧
    (v.shareFenceWith w).type_ = v.type_ ∧
    (v.copyCtor h).2.type_ = v.type_ ∧
    (copyAssignAt h s i j).2.get? m = s.get? m ∧
    (moveAssignAt h s i j).2.get? m = s.get? m := by
  have him : i ≠ m := fun hh => hm hh.symm
  refine ⟨rfl, rfl, rfl, ?_, ?_⟩
  · rcases hsi : s.get? i with _ | dst <;> rcases hsj : s.get? j with _ | src <;>
      simp only [copyAssignAt, hsi, hsj]
    all_goals
      by_cases hij : i ≠ j
      · rw [if_pos hij]
        exact lget_set_ne _ _ _ _ him
      · rw [if_neg hij]
  · rcases hsi : s.get? i with _ | dst <;> rcases hsj : s.get? j with _ | src <;>
      simp only [moveAssignAt, hsi, hsj]
    all_goals
      by_cases hij : i ≠ j
      · rw [if_pos hij]
        exact lget_set_ne _ _ _ _ him
      · rw [if_neg hij]

/-- C7 witness: a concrete store where container 1 keeps its identity while
container 0 is assigned to. -/
theorem C7_witness :
    (OrtValue.setFence ⟨some 0, some 4, none⟩ (some 9)).type_ = some 4 ∧
    (copyAssignAt Heap.empty [OrtValue.default, ⟨none, some 4, none⟩] 0 1).2.get? 1 =
      some ⟨none, some 4, none⟩ :=
  have main := C7_identity_stability Heap.empty
    [OrtValue.default, ⟨none, some 4, none⟩] 0 1 1
    ⟨some 0, some 4, none⟩ OrtValue.default (some 9) (by decide)
  ⟨main.1, main.2.2.2.1⟩

/-! ## Shared-ownership lifecycle lemmas -/

theorem init_fresh (h : Heap) (v0 : OrtValue) (hv : v0.data_ = none)
    (p t : Option Nat) (d : Nat) :
    OrtValue.init h v0 p t d =
      (⟨h.blocks ++ [⟨p, d, 1⟩], h.deleterRuns⟩,
        ⟨some h.blocks.length, t, v0.fence_⟩) := by
  simp [OrtValue.init, Heap.newBlock, releaseS, hv]

theorem makeCopies_spec (n : Nat) (v : OrtValue) (b : Nat) (p : Option Nat)
    (d : Nat) (hv : v.data_ = some b) :
    ∀ (h : Heap) (m : Nat), h.blocks.get? b = some ⟨p, d, m⟩ →
      (makeCopies h v n).1.blocks.get? b = some ⟨p, d, m + n⟩ ∧
      (makeCopies h v n).1.deleterRuns = h.deleterRuns ∧
      (makeCopies h v n).2.length = n ∧
      ∀ w ∈ (makeCopies h v n).2, w.data_ = some b := by
  induction n with
  | zero =>
    intro h m hb
    refine ⟨by simpa using hb, rfl, rfl, ?_⟩
    intro w hw
    cases hw
  | succ k ih =>
    intro h m hb
    have hcopy1 : (v.copyCtor h).1 = h.retain b := by
      simp [OrtValue.copyCtor, retainS, hv]
    have hb' : (v.copyCtor h).1.blocks.get? b = some ⟨p, d, m + 1⟩ := by
      rw [hcopy1]
      exact retain_get_self h b ⟨p, d, m⟩ hb
    have hruns' : (v.copyCtor h).1.deleterRuns = h.deleterRuns := by
      rw [hcopy1]
      exact deleterRuns_retain h b
    have ihh := ih (v.copyCtor h).1 (m + 1) hb'
    have hmk : makeCopies h v (k + 1) =
        ((makeCopies (v.copyCtor h).1 v k).1,
          (v.copyCtor h).2 :: (makeCopies (v.copyCtor h).1 v k).2) := rfl
    rw [hmk]
    refine ⟨?_, ?_, ?_, ?_⟩
    · have harith : m + 1 + k = m + (k + 1) := by omega
      rw [← harith]
      exact ihh.1
    · rw [ihh.2.1, hruns']
    · simp [ihh.2.2.1]
    · intro w hw
      rcases List.mem_cons.mp hw with hw1 | hw2
      · rw [hw1]
        exact hv
      · exact ihh.2.2.2 w hw2

theorem destroyList_shared (b : Nat) (p : Option Nat) (d : Nat)
    (l : List OrtValue) :
    ∀ (h : Heap) (n : Nat), (∀ w ∈ l, w.data_ = some b) →
      h.blocks.get? b = some ⟨p, d, n⟩ → l.length ≤ n → 0 < n →
      ∀ d', (destroyList h l).deleterRuns d' =
        if l.length = n ∧ d' = d then h.deleterRuns d' + 1
        else h.deleterRuns d' := by
  induction l with
  | nil =>
    intro h n _ hb hlen hpos d'
    have hne : ¬ (([] : List OrtValue).length = n ∧ d' = d) := by
      intro hc
      have h0 : (0 : Nat) = n := hc.1
      omega
    rw [if_neg hne]
    rfl
  | cons w ws ih =>
    intro h n hl hb hlen hpos d'
    have hwb : w.data_ = some b := hl w (List.mem_cons_self w ws)
    have hws : ∀ x ∈ ws, x.data_ = some b :=
      fun x hx => hl x (List.mem_cons_of_mem w hx)
    have hstep : destroyList h (w :: ws) = destroyList (h.release b) ws := by
      simp [destroyList, OrtValue.destroy, releaseS, hwb]
    rcases Nat.lt_or_ge n 2 with hn2 | hn2
    · have hn1 : n = 1 := by omega
      subst hn1
      have hws0 : ws.length = 0 := by
        rw [List.length_cons] at hlen
        omega
      have hwsnil : ws = [] := List.length_eq_zero.mp hws0
      subst hwsnil
      obtain ⟨hb', hruns⟩ := release_last h b p d hb
      rw [hstep]
      have hnil : destroyList (h.release b) [] = h.release b := rfl
      rw [hnil, hruns d']
      by_cases hd : d' = d
      · rw [if_pos hd, if_pos ⟨rfl, hd⟩]
      · rw [if_neg hd, if_neg (fun hc => hd hc.2)]
    · obtain ⟨hb', hruns⟩ := release_dec h b p d n hn2 hb
      have hlen' : ws.length ≤ n - 1 := by
        rw [List.length_cons] at hlen
        omega
      have hpos' : 0 < n - 1 := by omega
      have ihh := ih (h.release b) (n - 1) hws hb' hlen' hpos' d'
      rw [hstep, ihh, hruns]
      by_cases hc : ws.length = n - 1
      · have hc2 : (w :: ws).length = n := by
          rw [List.length_cons]
          omega
        by_cases hd : d' = d
        · rw [if_pos ⟨hc, hd⟩, if_pos ⟨hc2, hd⟩]
        · rw [if_neg (fun hx => hd hx.2), if_neg (fun hx => hd hx.2)]
      · have hc2 : ¬ ((w :: ws).length = n) := by
          rw [List.length_cons]
          omega
        rw [if_neg (fun hx => hc hx.1), if_neg (fun hx => hc2 hx.1)]

/-- C2: a container Init-ed with a payload and deleter `dl`, copied to `N`
owners in total, then destroyed — all `N` owners, in an arbitrary order
(any permutation `l` of the owners) — invokes deleter `dl` exactly once:
after all `N` destructions its invocation count has risen by exactly one,
after any `k < N` destructions it is unchanged (the deleter runs only at
the last destruction), and no other deleter `dl'` ever runs. -/
theorem C2_deleter_runs_exactly_once (h : Heap) (v0 : OrtValue)
    (p t : Option Nat) (dl : Nat) (N : Nat) (l : List OrtValue) (k dl' : Nat)
    (hv0 : v0.data_ = none) (hN : 0 < N) (hk : k < N) (hdl' : dl' ≠ dl)
    (hperm : l.Perm ((OrtValue.init h v0 p t dl).2 ::
      (makeCopies (OrtValue.init h v0 p t dl).1
        (OrtValue.init h v0 p t dl).2 (N - 1)).2)) :
    (destroyList (makeCopies (OrtValue.init h v0 p t dl).1
        (OrtValue.init h v0 p t dl).2 (N - 1)).1 l).deleterRuns dl =
      h.deleterRuns dl + 1 ∧
    (destroyList (makeCopies (OrtValue.init h v0 p t dl).1
        (OrtValue.init h v0 p t dl).2 (N - 1)).1 (l.take k)).deleterRuns dl =
      h.deleterRuns dl ∧
    (destroyList (makeCopies (OrtValue.init h v0 p t dl).1
        (OrtValue.init h v0 p t dl).2 (N - 1)).1 l).deleterRuns dl' =
      h.deleterRuns dl' := by
  have hinit := init_fresh h v0 hv0 p t dl
  simp only [hinit] at hperm ⊢
  have hb1 : (⟨h.blocks ++ [⟨p, dl, 1⟩], h.deleterRuns⟩ : Heap).blocks.get?
      h.blocks.length = some ⟨p, dl, 1⟩ :=
    lget_append_singleton h.blocks ⟨p, dl, 1⟩
  have hmc := makeCopies_spec (N - 1) ⟨some h.blocks.length, t, v0.fence_⟩
    h.blocks.length p dl rfl ⟨h.blocks ++ [⟨p, dl, 1⟩], h.deleterRuns⟩ 1 hb1
  have h1N : 1 + (N - 1) = N := by omega
  rw [h1N] at hmc
  have hlall : ∀ w ∈ l, w.data_ = some h.blocks.length := by
    intro w hw
    have hw2 := hperm.mem_iff.mp hw
    rcases List.mem_cons.mp hw2 with hwv | hwc
    · rw [hwv]
    · exact hmc.2.2.2 w hwc
  have hlen : l.length = N := by
    have hpl := hperm.length_eq
    rw [List.length_cons, hmc.2.2.1] at hpl
    omega
  refine ⟨?_, ?_, ?_⟩
  · have main := destroyList_shared h.blocks.length p dl l _ N hlall hmc.1
      (le_of_eq hlen) hN dl
    rw [main, if_pos ⟨hlen, rfl⟩, hmc.2.1]
  · have htsub : ∀ w ∈ l.take k, w.data_ = some h.blocks.length :=
      fun w hw => hlall w (List.take_subset k l hw)
    have htlen : (l.take k).length = k := by
      rw [List.length_take, hlen]
      omega
    have main := destroyList_shared h.blocks.length p dl (l.take k) _ N htsub
      hmc.1 (by omega) hN dl
    have hne : ¬ ((l.take k).length = N ∧ dl = dl) := by
      intro hx
      rw [htlen] at hx
      omega
    rw [main, if_neg hne, hmc.2.1]
  · have main := destroyList_shared h.blocks.length p dl l _ N hlall hmc.1
      (le_of_eq hlen) hN dl'
    rw [main, if_neg (fun hx => hdl' hx.2), hmc.2.1]

/-- C2 witness: two owners of one payload destroyed in order copy-then-
original; deleter 0 runs exactly once, at the second destruction, and
deleter 3 never runs. -/
theorem C2_witness :
    (destroyList (makeCopies (OrtValue.init Heap.empty OrtValue.default
        (some 5) (some 1) 0).1
        (OrtValue.init Heap.empty OrtValue.default (some 5) (some 1) 0).2
        (2 - 1)).1
      [⟨some 0, some 1, none⟩, ⟨some 0, some 1, none⟩]).deleterRuns 0 =
      Heap.empty.deleterRuns 0 + 1 ∧
    (destroyList (makeCopies (OrtValue.init Heap.empty OrtValue.default
        (some 5) (some 1) 0).1
        (OrtValue.init Heap.empty OrtValue.default (some 5) (some 1) 0).2
        (2 - 1)).1
      ([⟨some 0, some 1, none⟩, ⟨some 0, some 1, none⟩].take 1)).deleterRuns 0 =
      Heap.empty.deleterRuns 0 ∧
    (destroyList (makeCopies (OrtValue.init Heap.empty OrtValue.default
        (some 5) (some 1) 0).1
        (OrtValue.init Heap.empty OrtValue.default (some 5) (some 1) 0).2
        (2 - 1)).1
      [⟨some 0, some 1, none⟩, ⟨some 0, some 1, none⟩]).deleterRuns 3 =
      Heap.empty.deleterRuns 3 :=
  C2_deleter_runs_exactly_once Heap.empty OrtValue.default (some 5) (some 1) 0 2
    [⟨some 0, some 1, none⟩, ⟨some 0, some 1, none⟩] 1 3
    rfl (by decide) (by decide) (by decide) (by decide)

/-- C6 amended: after `Init(nullptr, nullptr, dl)` the container behaves as
empty for observation — `IsAllocated()` is false and typed access fails as
on an unallocated container — but, unlike destroying empty containers, the
bound deleter IS invoked: destroying all `N` owning copies (in an arbitrary
order) invokes deleter `dl` exactly once, at the last destruction, because
`shared_ptr<void>(p, deleter)` binds the deleter even for a null `p`. -/
theorem C6_null_init_empty_but_deleter_runs (h : Heap) (v0 : OrtValue)
    (dl : Nat) (N : Nat) (l : List OrtValue) (k tid : Nat)
    (hv0 : v0.data_ = none) (hN : 0 < N) (hk : k < N)
    (hperm : l.Perm ((OrtValue.init h v0 none none dl).2 ::
      (makeCopies (OrtValue.init h v0 none none dl).1
        (OrtValue.init h v0 none none dl).2 (N - 1)).2)) :
    OrtValue.isAllocated (makeCopies (OrtValue.init h v0 none none dl).1
        (OrtValue.init h v0 none none dl).2 (N - 1)).1
      (OrtValue.init h v0 none none dl).2 = false ∧
    (OrtValue.init h v0 none none dl).2.get
      (makeCopies (OrtValue.init h v0 none none dl).1
        (OrtValue.init h v0 none none dl).2 (N - 1)).1 tid =
      Except.error (AccessError.typeMismatch (some tid) none) ∧
    (destroyList (makeCopies (OrtValue.init h v0 none none dl).1
        (OrtValue.init h v0 none none dl).2 (N - 1)).1 l).deleterRuns dl =
      h.deleterRuns dl + 1 ∧
    (destroyList (makeCopies (OrtValue.init h v0 none none dl).1
        (OrtValue.init h v0 none none dl).2 (N - 1)).1
      (l.take k)).deleterRuns dl = h.deleterRuns dl := by
  have hinit := init_fresh h v0 hv0 none none dl
  simp only [hinit] at hperm ⊢
  have hb1 : (⟨h.blocks ++ [⟨none, dl, 1⟩], h.deleterRuns⟩ : Heap).blocks.get?
      h.blocks.length = some ⟨none, dl, 1⟩ :=
    lget_append_singleton h.blocks ⟨none, dl, 1⟩
  have hmc := makeCopies_spec (N - 1) ⟨some h.blocks.length, none, v0.fence_⟩
    h.blocks.length none dl rfl ⟨h.blocks ++ [⟨none, dl, 1⟩], h.deleterRuns⟩ 1 hb1
  have h1N : 1 + (N - 1) = N := by omega
  rw [h1N] at hmc
  have hsg : sptrGet (makeCopies (⟨h.blocks ++ [⟨none, dl, 1⟩], h.deleterRuns⟩ : Heap)
      ⟨some h.blocks.length, none, v0.fence_⟩ (N - 1)).1
      (some h.blocks.length) = none := by
    rw [sptrGet_some, hmc.1]
  have hlall : ∀ w ∈ l, w.data_ = some h.blocks.length := by
    intro w hw
    have hw2 := hperm.mem_iff.mp hw
    rcases List.mem_cons.mp hw2 with hwv | hwc
    · rw [hwv]
    · exact hmc.2.2.2 w hwc
  have hlen : l.length = N := by
    have hpl := hperm.length_eq
    rw [List.length_cons, hmc.2.2.1] at hpl
    omega
  refine ⟨?_, ?_, ?_, ?_⟩
  · simp [OrtValue.isAllocated, hsg]
  · simp [OrtValue.get]
  · have main := destroyList_shared h.blocks.length none dl l _ N hlall hmc.1
      (le_of_eq hlen) hN dl
    rw [main, if_pos ⟨hlen, rfl⟩, hmc.2.1]
  · have htsub : ∀ w ∈ l.take k, w.data_ = some h.blocks.length :=
      fun w hw => hlall w (List.take_subset k l hw)
    have htlen : (l.take k).length = k := by
      rw [List.length_take, hlen]
      omega
    have main := destroyList_shared h.blocks.length none dl (l.take k) _ N
      htsub hmc.1 (by omega) hN dl
    have hne : ¬ ((l.take k).length = N ∧ dl = dl) := by
      intro hx
      rw [htlen] at hx
      omega
    rw [main, if_neg hne, hmc.2.1]

/-- C6 witness: a single owner produced by `Init(nullptr, nullptr, 7)`:
unallocated, typed access fails, yet deleter 7 fires once on destruction. -/
theorem C6_witness :
    OrtValue.isAllocated (makeCopies (OrtValue.init Heap.empty OrtValue.default
        none none 7).1
        (OrtValue.init Heap.empty OrtValue.default none none 7).2 (1 - 1)).1
      (OrtValue.init Heap.empty OrtValue.default none none 7).2 = false ∧
    (OrtValue.init Heap.empty OrtValue.default none none 7).2.get
      (makeCopies (OrtValue.init Heap.empty OrtValue.default none none 7).1
        (OrtValue.init Heap.empty OrtValue.default none none 7).2 (1 - 1)).1 4 =
      Except.error (AccessError.typeMismatch (some 4) none) ∧
    (destroyList (makeCopies (OrtValue.init Heap.empty OrtValue.default
        none none 7).1
        (OrtValue.init Heap.empty OrtValue.default none none 7).2 (1 - 1)).1
      [⟨some 0, none, none⟩]).deleterRuns 7 = Heap.empty.deleterRuns 7 + 1 ∧
    (destroyList (makeCopies (OrtValue.init Heap.empty OrtValue.default
        none none 7).1
        (OrtValue.init Heap.empty OrtValue.default none none 7).2 (1 - 1)).1
      ([⟨some 0, none, none⟩].take 0)).deleterRuns 7 = Heap.empty.deleterRuns 7 :=
  C6_null_init_empty_but_deleter_runs Heap.empty OrtValue.default 7 1
    [⟨some 0, none, none⟩] 0 4 rfl (by decide) (by decide) (by decide)
